import Mathlib

/-!
Verification of the agenda-artronea appointment-scheduling application.

Shallow embedding of the core logic of the repository:
  * `src/Turnos.py`   — day grid, `guardar_turno`, the submitted save loop;
  * `src/pages/1_Pacientes.py` — roster merge (`base.update(edited)` + overwrite);
  * `src/pages/2_Estadisticas.py` — statistics over a date range.

Spreadsheet cells are strings; dates are `YYYY-MM-DD` strings, hours are
`HH:MM:SS` strings, the bed (`Camilla`) is a stringified integer, the paid
flag (`Pagado`) is the token `Sí` / `No`, and the vacancy sentinel is the
string `Vacante`.
-/

/-- A data row of the `Turnos` (Appointments) sheet, in physical sheet order.
Physical sheet row = list position + 2 (row 1 is the header). -/
structure TurnoRow where
  fecha : String
  hora : String
  camilla : String
  paciente : String
  pagado : String
deriving DecidableEq, Repr

/-- A write operation issued against the `Turnos` sheet.  Indices are the
1-based physical sheet indices used by `delete_rows` / `update_cell`. -/
inductive SheetOp where
  | deleteRow (idx : Nat)
  | updateCell (idx : Nat) (col : Nat) (v : String)
  | appendRow (r : TurnoRow)
deriving DecidableEq, Repr

/-- The row mask of `guardar_turno`: string-equal comparison on the three
key fields `Fecha`, `Hora`, `Camilla` (Turnos.py lines 87-89). -/
def rowMatches (fecha hora camilla : String) (r : TurnoRow) : Bool :=
  r.fecha == fecha && r.hora == hora && r.camilla == camilla

/-- `existing_row.index[0]`: 0-based position of the first row of the cached
snapshot matching the key (`None` when the mask is empty). -/
def findRowIndex (tbl : List TurnoRow) (fecha hora camilla : String) : Option Nat :=
  tbl.findIdx? (rowMatches fecha hora camilla)

/-- `guardar_turno` (Turnos.py lines 81-102).  The row index is resolved
against `cargar_datos("Turnos")`, which is the *cached* snapshot — the cache
is cleared only after the whole batch — so the snapshot is passed in
explicitly and stays fixed for a batch.  Returns the remote write
operations the call issues. -/
def guardar_turno (snapshot : List TurnoRow) (fecha hora : String) (camilla : Nat)
    (paciente pagado : String) : List SheetOp :=
  match findRowIndex snapshot fecha hora (toString camilla) with
  | some i =>
      -- row_index = existing_row.index[0] + 2
      if paciente = "Vacante" then
        [SheetOp.deleteRow (i + 2)]
      else
        [SheetOp.updateCell (i + 2) 4 paciente, SheetOp.updateCell (i + 2) 5 pagado]
  | none =>
      if paciente ≠ "Vacante" then
        [SheetOp.appendRow ⟨fecha, hora, toString camilla, paciente, pagado⟩]
      else []

/-- `update_cell(row, col, v)` on a single row: column 4 is `Paciente`,
column 5 is `Pagado`. -/
def setCell (r : TurnoRow) (col : Nat) (v : String) : TurnoRow :=
  if col = 4 then { r with paciente := v }
  else if col = 5 then { r with pagado := v }
  else r

/-- Apply one write operation to the live sheet (list of data rows in
physical order).  `delete_rows (i)` removes the data row at position
`i - 2`; deleting past the data region only removes blank sheet rows, a
no-op on the data. -/
def applyOp (live : List TurnoRow) : SheetOp → List TurnoRow
  | SheetOp.deleteRow idx => live.eraseIdx (idx - 2)
  | SheetOp.updateCell idx col v =>
      match live[idx - 2]? with
      | some r => live.set (idx - 2) (setCell r col v)
      | none => live
  | SheetOp.appendRow r => live ++ [r]

def applyOps (live : List TurnoRow) (ops : List SheetOp) : List TurnoRow :=
  ops.foldl applyOp live

/-- Slot resolution of the day grid (Turnos.py lines 224-229 and 284-289):
filter the snapshot to the selected date, take the first row matching the
hour and bed, default `("Vacante", false)`; paid is `Pagado == 'Sí'`. -/
def turnoActual (snapshot : List TurnoRow) (fecha hora : String) (camilla : Nat) :
    String × Bool :=
  match (snapshot.filter (fun r => r.fecha == fecha)).find?
      (fun r => r.hora == hora && r.camilla == toString camilla) with
  | some r => (r.paciente, r.pagado == "Sí")
  | none => ("Vacante", false)

/-- Forcing of the paid checkbox (Turnos.py lines 277-281): a `Vacante`
selection forces paid to `false` regardless of the checkbox. -/
def pagadoSeleccionado (paciente : String) (checkbox : Bool) : Bool :=
  if paciente = "Vacante" then false else checkbox

/-- One iteration of the submitted save loop for a single `(hora, camilla)`
key (Turnos.py lines 268-294): read the selection, force paid for vacants,
compare with the original resolved from the (stale) snapshot, and call
`guardar_turno` only when the `(patient, paid)` pair changed. -/
def opsForKey (snapshot : List TurnoRow) (fecha hora : String) (camilla : Nat)
    (pacienteSel : String) (checkbox : Bool) : List SheetOp :=
  let pagadoSel := pagadoSeleccionado pacienteSel checkbox
  let orig := turnoActual snapshot fecha hora camilla
  if pacienteSel ≠ orig.1 ∨ pagadoSel ≠ orig.2 then
    guardar_turno snapshot fecha hora camilla pacienteSel
      (if pagadoSel then "Sí" else "No")
  else []

/-- The keys the save loop iterates: each time slot crossed with beds
`1 .. numCamillas`, in that order. -/
def keysOf (slots : List String) (numCamillas : Nat) : List (String × Nat) :=
  slots.flatMap (fun h => (List.range numCamillas).map (fun i => (h, i + 1)))

/-- The whole submitted save batch (Turnos.py lines 265-294): iterate the
grid keys; for each changed key issue the `guardar_turno` operations,
applying them to the live sheet as they are issued.  The snapshot used to
resolve originals and row indices is the cached pre-batch one and is never
refreshed mid-batch.  Returns the final live sheet and the operation log. -/
def saveBatch (snapshot live : List TurnoRow) (fecha : String) (slots : List String)
    (numCamillas : Nat) (sel : String → Nat → String × Bool) :
    List TurnoRow × List SheetOp :=
  (keysOf slots numCamillas).foldl
    (fun acc k =>
      let ops := opsForKey snapshot fecha k.1 k.2 (sel k.1 k.2).1 (sel k.1 k.2).2
      (applyOps acc.1 ops, acc.2 ++ ops))
    (live, [])

/-- Events of the submit flow, for the cache policy: every remote write of
the batch, then the single `st.cache_data.clear()` (Turnos.py line 297). -/
inductive Event where
  | write (op : SheetOp)
  | clearCache
deriving DecidableEq, Repr

/-- The full submit flow (Turnos.py lines 265-299): all batch writes, then
one global cache invalidation. -/
def submitFlow (snapshot live : List TurnoRow) (fecha : String) (slots : List String)
    (numCamillas : Nat) (sel : String → Nat → String × Bool) : List Event :=
  ((saveBatch snapshot live fecha slots numCamillas sel).2.map Event.write)
    ++ [Event.clearCache]

/-- A record of the `Pacientes` sheet as read for the day grid
(Turnos.py lines 160-172): only the `Nombre Completo` and `Activo`
columns are consulted there. -/
structure PacienteRec where
  nombre : String
  activo : String
deriving DecidableEq, Repr

/-- `pacientes_activos` (Turnos.py line 165): names of the rows with
`Activo == 'Sí'`. -/
def pacientesActivos (pacientes : List PacienteRec) : List String :=
  (pacientes.filter (fun p => p.activo == "Sí")).map (fun p => p.nombre)

/-- `unique()` of a pandas column: first occurrences, in order. -/
def uniqueFirst (l : List String) : List String :=
  l.foldl (fun acc p => if p ∈ acc then acc else acc ++ [p]) []

/-- `lista_pacientes` (Turnos.py lines 164-172): `"Vacante"` followed by the
sorted active names, then every patient already on the day's agenda that is
not yet listed (inactive patients with an appointment that day included). -/
def lista_pacientes (pacientes : List PacienteRec) (turnosDelDia : List TurnoRow) :
    List String :=
  let base := "Vacante" :: List.insertionSort (· ≤ ·) (pacientesActivos pacientes)
  (uniqueFirst (turnosDelDia.map (fun r => r.paciente))).foldl
    (fun acc p => if p ≠ "Vacante" ∧ p ∉ acc then acc ++ [p] else acc) base

/-- A row of the `Pacientes` sheet as a pandas record for the roster editor
(1_Pacientes.py).  Non-key cells are `Option String`: `none` models a
missing value (`NaN`), which `DataFrame.update` never copies over. -/
structure PacienteRow where
  nombre : String
  telefono : Option String
  obraSocial : Option String
  descripcion : Option String
  activo : Option String
deriving DecidableEq, Repr

/-- One cell of `base.update(edited)`: a non-missing edited value overwrites
the base value, a missing one leaves it. -/
def updCell (b e : Option String) : Option String :=
  match e with
  | some v => some v
  | none => b

/-- Row lookup by the `Nombre Completo` index. -/
def lookupNombre (l : List PacienteRow) (n : String) : Option PacienteRow :=
  l.find? (fun r => r.nombre == n)

/-- Field-wise effect of `base.update(edited)` on one aligned row. -/
def updateRow (b e : PacienteRow) : PacienteRow :=
  { nombre := b.nombre
    telefono := updCell b.telefono e.telefono
    obraSocial := updCell b.obraSocial e.obraSocial
    descripcion := updCell b.descripcion e.descripcion
    activo := updCell b.activo e.activo }

/-- The roster merge-and-overwrite (1_Pacientes.py lines 384-393): both
frames are indexed by `Nombre Completo` and `base.update(edited)` aligns on
that index — each base row whose name appears in the edited frame receives
the edited non-missing cells; every other base row, and the base row order,
pass through; edited rows whose name is not in the base are ignored.  The
result is what the full-table overwrite writes back. -/
def base_update (base edited : List PacienteRow) : List PacienteRow :=
  base.map (fun b =>
    match lookupNombre edited b.nombre with
    | some e => updateRow b e
    | none => b)

/-- Outcome of rendering the statistics page (2_Estadisticas.py). -/
inductive StatsOutcome where
  | missingData
  | emptyPeriod
  | metrics (totalTurnos turnosPagados pacientesUnicos : Nat)
deriving DecidableEq, Repr

/-- Models `pd.to_datetime(format='%Y-%m-%d', errors='coerce')` plus
`dropna`: a cell survives iff it parses as `YYYY-MM-DD` with a plausible
month and day. -/
def validFecha (s : String) : Bool :=
  match s.toList with
  | [y1, y2, y3, y4, s1, m1, m2, s2, d1, d2] =>
      y1.isDigit && y2.isDigit && y3.isDigit && y4.isDigit &&
      s1 == '-' && s2 == '-' &&
      m1.isDigit && m2.isDigit && d1.isDigit && d2.isDigit &&
      (decide (1 ≤ (m1.toNat - 48) * 10 + (m2.toNat - 48)) &&
       decide ((m1.toNat - 48) * 10 + (m2.toNat - 48) ≤ 12) &&
       decide (1 ≤ (d1.toNat - 48) * 10 + (d2.toNat - 48)) &&
       decide ((d1.toNat - 48) * 10 + (d2.toNat - 48) ≤ 31))
  | _ => false

/-- Lexicographic comparison of two character lists. -/
def charListLe : List Char → List Char → Bool
  | [], _ => true
  | _ :: _, [] => false
  | a :: as, b :: bs => if a < b then true else if b < a then false else charListLe as bs

/-- Order on parsed dates, as `pd.Timestamp` comparison: for the fixed
zero-padded `YYYY-MM-DD` format, chronological order is lexicographic
order on the characters. -/
def fechaLe (a b : String) : Bool := charListLe a.toList b.toList

/-- The left join `pd.merge(turnos, pacientes, left_on='Paciente',
right_on='Nombre Completo', how='left')` (2_Estadisticas.py line 108):
each appointment row is paired with every matching patient row, or with
`none` when no patient matches. -/
def mergeTurnosPacientes (turnos : List TurnoRow) (pacientes : List PacienteRec) :
    List (TurnoRow × Option PacienteRec) :=
  turnos.flatMap (fun t =>
    match pacientes.filter (fun p => p.nombre == t.paciente) with
    | [] => [(t, none)]
    | ps => ps.map (fun p => (t, some p)))

/-- The statistics computation (2_Estadisticas.py lines 95-127): halt when a
table is empty; drop appointments with unparseable dates; left-join with the
patients; filter to the inclusive `[startDate, endDate]` range; halt with the
informational empty-period message when nothing remains; otherwise report the
three key counts. -/
def estadisticas (turnos : List TurnoRow) (pacientes : List PacienteRec)
    (startDate endDate : String) : StatsOutcome :=
  if turnos = [] ∨ pacientes = [] then StatsOutcome.missingData
  else
    let turnosValidos := turnos.filter (fun r => validFecha r.fecha)
    let merged := mergeTurnosPacientes turnosValidos pacientes
    let filtered := merged.filter
      (fun m => fechaLe startDate m.1.fecha && fechaLe m.1.fecha endDate)
    if filtered = [] then StatsOutcome.emptyPeriod
    else
      StatsOutcome.metrics filtered.length
        (filtered.filter (fun m => m.1.pagado == "Sí")).length
        (uniqueFirst (filtered.map (fun m => m.1.paciente))).length

/-! ## Helper lemmas -/

lemma nombre_updateRow (b e : PacienteRow) : (updateRow b e).nombre = b.nombre := rfl

lemma base_update_get? (base edited : List PacienteRow) (i : Nat) :
    (base_update base edited)[i]? =
      (base[i]?).map (fun b =>
        match lookupNombre edited b.nombre with
        | some e => updateRow b e
        | none => b) := by
  simp [base_update]

lemma clearCache_not_mem_writes (ops : List SheetOp) :
    Event.clearCache ∉ ops.map Event.write := by
  intro h
  rcases List.mem_map.mp h with ⟨op, _, hop⟩
  cases hop

/-! ## Claim theorems -/

/-- Claim C9: in every save batch, the global cache invalidation is invoked
exactly once, and it is the last event of the submit flow — strictly after
all row writes of the batch, never before or between them. -/
theorem submitFlow_clear_once_after_writes (snapshot live : List TurnoRow)
    (fecha : String) (slots : List String) (numCamillas : Nat)
    (sel : String → Nat → String × Bool) :
    (submitFlow snapshot live fecha slots numCamillas sel).count Event.clearCache = 1 ∧
    (submitFlow snapshot live fecha slots numCamillas sel).getLast? =
      some Event.clearCache ∧
    ∀ e ∈ (submitFlow snapshot live fecha slots numCamillas sel).dropLast,
      ∃ op, e = Event.write op := by
  refine ⟨?_, ?_, ?_⟩
  · rw [submitFlow, List.count_append]
    rw [List.count_eq_zero.mpr
      (clearCache_not_mem_writes (saveBatch snapshot live fecha slots numCamillas sel).2)]
    rfl
  · rw [submitFlow, List.getLast?_concat]
  · intro e he
    rw [submitFlow, List.dropLast_concat] at he
    rcases List.mem_map.mp he with ⟨op, _, hop⟩
    exact ⟨op, hop.symm⟩

/-- Claim C6: the roster merge-and-overwrite leaves every row of the full
roster whose name is absent from the edited subset unchanged, at its
original position, and the written-back table has exactly as many rows as
the full roster — removing a row from the edited subset never removes that
patient from the roster. -/
theorem base_update_frame (base edited : List PacienteRow) :
    (base_update base edited).length = base.length ∧
    ∀ (i : Nat) (b : PacienteRow), base[i]? = some b →
      lookupNombre edited b.nombre = none →
      (base_update base edited)[i]? = some b := by
  constructor
  · simp [base_update]
  · intro i b hb hnone
    rw [base_update_get?, hb, Option.map_some']
    simp [hnone]

/-- Claim C10: the roster save writes back exactly the original roster's
name sequence — an edited row whose name is not already in the full roster
is silently discarded and never written — while rows whose name matches
receive the edited non-missing field values. -/
theorem base_update_discards_new_rows (base edited : List PacienteRow) :
    ((base_update base edited).map (fun r => r.nombre) =
        base.map (fun r => r.nombre)) ∧
    (∀ n, lookupNombre base n = none →
        lookupNombre (base_update base edited) n = none) ∧
    (∀ (i : Nat) (b e : PacienteRow), base[i]? = some b →
        lookupNombre edited b.nombre = some e →
        (base_update base edited)[i]? = some (updateRow b e)) := by
  refine ⟨?_, ?_, ?_⟩
  · rw [base_update, List.map_map]
    apply List.map_congr_left
    intro b _
    simp only [Function.comp_apply]
    cases lookupNombre edited b.nombre <;> simp [nombre_updateRow]
  · intro n hn
    rw [lookupNombre, List.find?_eq_none] at hn ⊢
    intro x hx
    rcases List.mem_map.mp hx with ⟨b, hb, hfb⟩
    have hnom : x.nombre = b.nombre := by
      subst hfb
      cases lookupNombre edited b.nombre <;> simp [nombre_updateRow]
    simpa [hnom] using hn b hb
  · intro i b e hb he
    rw [base_update_get?, hb, Option.map_some']
    simp [he]

/-- Witness for C6 at a concrete roster: the inactive patient `Bruno` is
absent from the edited active subset and passes through unchanged. -/
theorem base_update_frame_witness :
    (base_update
        [⟨"Ana", some "1", some "OS", some "d", some "Sí"⟩,
         ⟨"Bruno", some "2", some "OS", some "d", some "No"⟩]
        [⟨"Ana", some "9", some "OS", some "d", some "Sí"⟩])[1]? =
      some ⟨"Bruno", some "2", some "OS", some "d", some "No"⟩ :=
  (base_update_frame
      [⟨"Ana", some "1", some "OS", some "d", some "Sí"⟩,
       ⟨"Bruno", some "2", some "OS", some "d", some "No"⟩]
      [⟨"Ana", some "9", some "OS", some "d", some "Sí"⟩]).2 1
    ⟨"Bruno", some "2", some "OS", some "d", some "No"⟩ (by decide) (by decide)

/-- Witness for C10 at a concrete roster: the freshly added row `Zoe` is
not written back, while the matching row `Ana` receives the edited phone. -/
theorem base_update_discards_new_rows_witness :
    lookupNombre
        (base_update
          [⟨"Ana", some "1", some "OS", some "d", some "Sí"⟩]
          [⟨"Ana", some "9", none, none, some "Sí"⟩,
           ⟨"Zoe", some "7", some "OS", some "d", some "Sí"⟩]) "Zoe" = none ∧
    (base_update
        [⟨"Ana", some "1", some "OS", some "d", some "Sí"⟩]
        [⟨"Ana", some "9", none, none, some "Sí"⟩,
         ⟨"Zoe", some "7", some "OS", some "d", some "Sí"⟩])[0]? =
      some ⟨"Ana", some "9", some "OS", some "d", some "Sí"⟩ :=
  ⟨(base_update_discards_new_rows
        [⟨"Ana", some "1", some "OS", some "d", some "Sí"⟩]
        [⟨"Ana", some "9", none, none, some "Sí"⟩,
         ⟨"Zoe", some "7", some "OS", some "d", some "Sí"⟩]).2.1 "Zoe" (by decide),
   (base_update_discards_new_rows
        [⟨"Ana", some "1", some "OS", some "d", some "Sí"⟩]
        [⟨"Ana", some "9", none, none, some "Sí"⟩,
         ⟨"Zoe", some "7", some "OS", some "d", some "Sí"⟩]).2.2 0
      ⟨"Ana", some "1", some "OS", some "d", some "Sí"⟩
      ⟨"Ana", some "9", none, none, some "Sí"⟩ (by decide) (by decide)⟩

/-! ### Preservation of the no-vacant-row invariant (C5) -/

lemma paciente_setCell_col5 (r : TurnoRow) (v : String) :
    (setCell r 5 v).paciente = r.paciente := rfl

lemma mem_applyOp_deleteRow {live : List TurnoRow} {idx : Nat} {r : TurnoRow}
    (h : r ∈ applyOp live (SheetOp.deleteRow idx)) : r ∈ live :=
  List.eraseIdx_subset live (idx - 2) h

lemma no_vacante_applyOp_update4 {live : List TurnoRow} {idx : Nat} {v : String}
    (hlive : ∀ r ∈ live, r.paciente ≠ "Vacante") (hv : v ≠ "Vacante") :
    ∀ r ∈ applyOp live (SheetOp.updateCell idx 4 v), r.paciente ≠ "Vacante" := by
  intro r hr
  rw [applyOp] at hr
  rcases hget : live[idx - 2]? with _ | row
  · rw [hget] at hr
    exact hlive r hr
  · rw [hget] at hr
    rcases List.mem_or_eq_of_mem_set hr with hmem | heq
    · exact hlive r hmem
    · subst heq
      simpa [setCell] using hv

lemma no_vacante_applyOp_update5 {live : List TurnoRow} {idx : Nat} {v : String}
    (hlive : ∀ r ∈ live, r.paciente ≠ "Vacante") :
    ∀ r ∈ applyOp live (SheetOp.updateCell idx 5 v), r.paciente ≠ "Vacante" := by
  intro r hr
  rw [applyOp] at hr
  rcases hget : live[idx - 2]? with _ | row
  · rw [hget] at hr
    exact hlive r hr
  · rw [hget] at hr
    rcases List.mem_or_eq_of_mem_set hr with hmem | heq
    · exact hlive r hmem
    · subst heq
      rw [paciente_setCell_col5]
      exact hlive row (List.getElem?_mem hget)

lemma no_vacante_applyOps_opsForKey (snapshot : List TurnoRow) (fecha hora : String)
    (camilla : Nat) (pSel : String) (cb : Bool) (live : List TurnoRow)
    (hlive : ∀ r ∈ live, r.paciente ≠ "Vacante") :
    ∀ r ∈ applyOps live (opsForKey snapshot fecha hora camilla pSel cb),
      r.paciente ≠ "Vacante" := by
  rw [opsForKey]
  split
  · rw [guardar_turno]
    split
    · -- an existing row was found in the snapshot
      split
      · -- delete branch
        intro r hr
        exact hlive r (mem_applyOp_deleteRow hr)
      · -- update branch: cell 4 gets the non-vacant patient, cell 5 the paid token
        rename_i hvac
        intro r hr
        rw [applyOps, List.foldl_cons, List.foldl_cons, List.foldl_nil] at hr
        exact no_vacante_applyOp_update5
          (no_vacante_applyOp_update4 hlive hvac) r hr
    · -- no existing row
      split
      · -- append branch: the appended row carries the non-vacant patient
        rename_i hvac
        intro r hr
        rw [applyOps, List.foldl_cons, List.foldl_nil, applyOp] at hr
        rcases List.mem_append.mp hr with hmem | heq
        · exact hlive r hmem
        · rw [List.mem_singleton] at heq
          subst heq
          exact hvac
      · exact hlive
  · exact hlive

lemma no_vacante_saveBatch_aux (snapshot : List TurnoRow) (fecha : String)
    (sel : String → Nat → String × Bool) :
    ∀ (keys : List (String × Nat)) (acc : List TurnoRow × List SheetOp),
      (∀ r ∈ acc.1, r.paciente ≠ "Vacante") →
      ∀ r ∈ (keys.foldl
          (fun acc k =>
            let ops := opsForKey snapshot fecha k.1 k.2 (sel k.1 k.2).1 (sel k.1 k.2).2
            (applyOps acc.1 ops, acc.2 ++ ops)) acc).1,
        r.paciente ≠ "Vacante" := by
  intro keys
  induction keys with
  | nil => intro acc hacc; exact hacc
  | cons k keys ih =>
      intro acc hacc
      rw [List.foldl_cons]
      exact ih _ (no_vacante_applyOps_opsForKey snapshot fecha k.1 k.2
        (sel k.1 k.2).1 (sel k.1 k.2).2 acc.1 hacc)

/-- Claim C5: a `Vacante` selection forces paid to `false` regardless of the
submitted checkbox, and the save batch never stores a row whose patient is
the vacant sentinel: if the live table has no such row before the batch, it
has none after — vacancy is represented by row absence. -/
theorem saveBatch_no_vacante_row (snapshot live : List TurnoRow) (fecha : String)
    (slots : List String) (numCamillas : Nat) (sel : String → Nat → String × Bool)
    (hlive : ∀ r ∈ live, r.paciente ≠ "Vacante") :
    (∀ cb : Bool, pagadoSeleccionado "Vacante" cb = false) ∧
    ∀ r ∈ (saveBatch snapshot live fecha slots numCamillas sel).1,
      r.paciente ≠ "Vacante" := by
  constructor
  · intro cb
    rfl
  · rw [saveBatch]
    exact no_vacante_saveBatch_aux snapshot fecha sel (keysOf slots numCamillas)
      (live, []) hlive

/-- Witness for C5: a concrete batch that checks the paid box on a slot
edited to `Vacante` — the row is deleted, the forced paid is `false`, and no
stored row carries the vacant sentinel. -/
theorem saveBatch_no_vacante_row_witness :
    (∀ cb : Bool, pagadoSeleccionado "Vacante" cb = false) ∧
    ∀ r ∈ (saveBatch [⟨"2024-05-07", "13:00:00", "1", "Ana", "No"⟩]
        [⟨"2024-05-07", "13:00:00", "1", "Ana", "No"⟩] "2024-05-07"
        ["13:00:00"] 4 (fun _ _ => ("Vacante", true))).1,
      r.paciente ≠ "Vacante" :=
  saveBatch_no_vacante_row [⟨"2024-05-07", "13:00:00", "1", "Ana", "No"⟩]
    [⟨"2024-05-07", "13:00:00", "1", "Ana", "No"⟩] "2024-05-07"
    ["13:00:00"] 4 (fun _ _ => ("Vacante", true)) (by decide)

/-! ### Per-key case analysis of the reconciliation (C2) -/

lemma opsForKey_unchanged (snapshot : List TurnoRow) (fecha hora : String)
    (camilla : Nat) (pSel : String) (cb : Bool)
    (h : (pSel, pagadoSeleccionado pSel cb) = turnoActual snapshot fecha hora camilla) :
    opsForKey snapshot fecha hora camilla pSel cb = [] := by
  have h1 : pSel = (turnoActual snapshot fecha hora camilla).1 := by rw [← h]
  have h2 : pagadoSeleccionado pSel cb = (turnoActual snapshot fecha hora camilla).2 := by
    rw [← h]
  rw [opsForKey, if_neg]
  push_neg
  exact ⟨h1, h2⟩

lemma opsForKey_changed (snapshot : List TurnoRow) (fecha hora : String)
    (camilla : Nat) (pSel : String) (cb : Bool)
    (h : (pSel, pagadoSeleccionado pSel cb) ≠ turnoActual snapshot fecha hora camilla) :
    opsForKey snapshot fecha hora camilla pSel cb =
      guardar_turno snapshot fecha hora camilla pSel
        (if pagadoSeleccionado pSel cb then "Sí" else "No") := by
  have hc : pSel ≠ (turnoActual snapshot fecha hora camilla).1 ∨
      pagadoSeleccionado pSel cb ≠ (turnoActual snapshot fecha hora camilla).2 := by
    by_contra hcon
    push_neg at hcon
    exact h (Prod.ext hcon.1 hcon.2)
  rw [opsForKey, if_pos hc]

lemma guardar_turno_some_vacante (snapshot : List TurnoRow) (fecha hora : String)
    (camilla : Nat) (pagado : String) (i : Nat)
    (hfind : findRowIndex snapshot fecha hora (toString camilla) = some i) :
    guardar_turno snapshot fecha hora camilla "Vacante" pagado
      = [SheetOp.deleteRow (i + 2)] := by
  simp [guardar_turno, hfind]

lemma guardar_turno_some_update (snapshot : List TurnoRow) (fecha hora : String)
    (camilla : Nat) (paciente pagado : String) (i : Nat)
    (hvac : paciente ≠ "Vacante")
    (hfind : findRowIndex snapshot fecha hora (toString camilla) = some i) :
    guardar_turno snapshot fecha hora camilla paciente pagado
      = [SheetOp.updateCell (i + 2) 4 paciente, SheetOp.updateCell (i + 2) 5 pagado] := by
  simp [guardar_turno, hfind, hvac]

lemma guardar_turno_none_append (snapshot : List TurnoRow) (fecha hora : String)
    (camilla : Nat) (paciente pagado : String)
    (hvac : paciente ≠ "Vacante")
    (hfind : findRowIndex snapshot fecha hora (toString camilla) = none) :
    guardar_turno snapshot fecha hora camilla paciente pagado
      = [SheetOp.appendRow ⟨fecha, hora, toString camilla, paciente, pagado⟩] := by
  simp [guardar_turno, hfind, hvac]

/-- Claim C2: for every slot key the reconciliation performs exactly one
action determined by comparing the original and edited `(patient, paid)`
pair: no write when unchanged; a delete of the existing row when the edit is
`Vacante` and a row exists; an append when the edit is non-vacant and no row
exists; an in-place update of the patient and paid cells when the edit is
non-vacant and a row exists.  On the spec's example — original row
`(2024-01-01, 09:00, 1, Ana, No)`, bed 1 edited to `Vacante`, bed 2 to
`(Luis, paid)` — the batch issues exactly one delete and one append with
paid `Sí`, and no update. -/
theorem opsForKey_case_analysis (snapshot : List TurnoRow) (fecha hora : String)
    (camilla : Nat) (pSel : String) (cb : Bool) :
    (((pSel, pagadoSeleccionado pSel cb) = turnoActual snapshot fecha hora camilla →
        opsForKey snapshot fecha hora camilla pSel cb = []) ∧
      (∀ i : Nat,
        (pSel, pagadoSeleccionado pSel cb) ≠ turnoActual snapshot fecha hora camilla →
        pSel = "Vacante" →
        findRowIndex snapshot fecha hora (toString camilla) = some i →
        opsForKey snapshot fecha hora camilla pSel cb = [SheetOp.deleteRow (i + 2)]) ∧
      ((pSel, pagadoSeleccionado pSel cb) ≠ turnoActual snapshot fecha hora camilla →
        pSel ≠ "Vacante" →
        findRowIndex snapshot fecha hora (toString camilla) = none →
        opsForKey snapshot fecha hora camilla pSel cb =
          [SheetOp.appendRow ⟨fecha, hora, toString camilla, pSel,
            if pagadoSeleccionado pSel cb then "Sí" else "No"⟩]) ∧
      (∀ i : Nat,
        (pSel, pagadoSeleccionado pSel cb) ≠ turnoActual snapshot fecha hora camilla →
        pSel ≠ "Vacante" →
        findRowIndex snapshot fecha hora (toString camilla) = some i →
        opsForKey snapshot fecha hora camilla pSel cb =
          [SheetOp.updateCell (i + 2) 4 pSel,
           SheetOp.updateCell (i + 2) 5
             (if pagadoSeleccionado pSel cb then "Sí" else "No")])) ∧
    (saveBatch [⟨"2024-01-01", "09:00:00", "1", "Ana", "No"⟩]
        [⟨"2024-01-01", "09:00:00", "1", "Ana", "No"⟩] "2024-01-01" ["09:00:00"] 4
        (fun _ i => if i = 1 then ("Vacante", false)
                    else if i = 2 then ("Luis", true) else ("Vacante", false))).2 =
      [SheetOp.deleteRow 2,
       SheetOp.appendRow ⟨"2024-01-01", "09:00:00", "2", "Luis", "Sí"⟩] := by
  refine ⟨⟨?_, ?_, ?_, ?_⟩, by rfl⟩
  · exact opsForKey_unchanged snapshot fecha hora camilla pSel cb
  · intro i hch hvac hfind
    subst hvac
    rw [opsForKey_changed snapshot fecha hora camilla _ cb hch]
    exact guardar_turno_some_vacante snapshot fecha hora camilla _ i hfind
  · intro hch hvac hfind
    rw [opsForKey_changed snapshot fecha hora camilla pSel cb hch]
    exact guardar_turno_none_append snapshot fecha hora camilla pSel _ hvac hfind
  · intro i hch hvac hfind
    rw [opsForKey_changed snapshot fecha hora camilla pSel cb hch]
    exact guardar_turno_some_update snapshot fecha hora camilla pSel _ i hvac hfind

/-- Witness for C2: the four branches at concrete slots — an unchanged slot,
a delete, an append with forced `Sí`, and an in-place update. -/
theorem opsForKey_case_analysis_witness :
    opsForKey [⟨"2024-06-03", "13:00:00", "1", "Ana", "Sí"⟩]
        "2024-06-03" "13:00:00" 1 "Ana" true = [] ∧
    opsForKey [⟨"2024-06-03", "13:00:00", "1", "Ana", "Sí"⟩]
        "2024-06-03" "13:00:00" 1 "Vacante" false = [SheetOp.deleteRow 2] ∧
    opsForKey [⟨"2024-06-03", "13:00:00", "1", "Ana", "Sí"⟩]
        "2024-06-03" "14:00:00" 1 "Eva" true =
      [SheetOp.appendRow ⟨"2024-06-03", "14:00:00", "1", "Eva", "Sí"⟩] ∧
    opsForKey [⟨"2024-06-03", "13:00:00", "1", "Ana", "Sí"⟩]
        "2024-06-03" "13:00:00" 1 "Eva" false =
      [SheetOp.updateCell 2 4 "Eva", SheetOp.updateCell 2 5 "No"] :=
  ⟨(opsForKey_case_analysis [⟨"2024-06-03", "13:00:00", "1", "Ana", "Sí"⟩]
      "2024-06-03" "13:00:00" 1 "Ana" true).1.1 (by decide),
   (opsForKey_case_analysis [⟨"2024-06-03", "13:00:00", "1", "Ana", "Sí"⟩]
      "2024-06-03" "13:00:00" 1 "Vacante" false).1.2.1 0 (by decide) rfl (by decide),
   (opsForKey_case_analysis [⟨"2024-06-03", "13:00:00", "1", "Ana", "Sí"⟩]
      "2024-06-03" "14:00:00" 1 "Eva" true).1.2.2.1 (by decide) (by decide) (by decide),
   (opsForKey_case_analysis [⟨"2024-06-03", "13:00:00", "1", "Ana", "Sí"⟩]
      "2024-06-03" "13:00:00" 1 "Eva" false).1.2.2.2 0 (by decide) (by decide) (by decide)⟩

/-! ### Membership in the selectable patient list (C7) -/

lemma mem_listaStep (acc : List String) (q p : String) :
    p ∈ (if q ≠ "Vacante" ∧ q ∉ acc then acc ++ [q] else acc) ↔
      p ∈ acc ∨ (p = q ∧ q ≠ "Vacante") := by
  split
  · rename_i hq
    simp only [List.mem_append, List.mem_singleton]
    constructor
    · rintro (h | h)
      · exact Or.inl h
      · exact Or.inr ⟨h, hq.1⟩
    · rintro (h | h)
      · exact Or.inl h
      · exact Or.inr h.1
  · rename_i hq
    push_neg at hq
    rw [← or_iff_not_imp_left] at hq
    constructor
    · exact Or.inl
    · rintro (h | ⟨rfl, hp⟩)
      · exact h
      · rcases hq with hq | hq
        · exact absurd hq hp
        · exact hq

lemma mem_lista_foldl (l : List String) :
    ∀ (acc : List String) (p : String),
      p ∈ l.foldl (fun acc q => if q ≠ "Vacante" ∧ q ∉ acc then acc ++ [q] else acc) acc ↔
        p ∈ acc ∨ (p ∈ l ∧ p ≠ "Vacante") := by
  induction l with
  | nil => simp
  | cons q l ih =>
      intro acc p
      rw [List.foldl_cons, ih, mem_listaStep]
      simp only [List.mem_cons]
      constructor
      · rintro ((h | ⟨rfl, hq⟩) | ⟨hl, hp⟩)
        · exact Or.inl h
        · exact Or.inr ⟨Or.inl rfl, hq⟩
        · exact Or.inr ⟨Or.inr hl, hp⟩
      · rintro (h | ⟨rfl | hl, hp⟩)
        · exact Or.inl (Or.inl h)
        · exact Or.inl (Or.inr ⟨rfl, hp⟩)
        · exact Or.inr ⟨hl, hp⟩

lemma mem_uniqueStep (acc : List String) (q p : String) :
    p ∈ (if q ∈ acc then acc else acc ++ [q]) ↔ p ∈ acc ∨ p = q := by
  split
  · rename_i hq
    constructor
    · exact Or.inl
    · rintro (h | rfl)
      · exact h
      · simpa using hq
  · simp [List.mem_append]

lemma mem_uniqueFirst_foldl (l : List String) :
    ∀ (acc : List String) (p : String),
      p ∈ l.foldl (fun acc q => if q ∈ acc then acc else acc ++ [q]) acc ↔
        p ∈ acc ∨ p ∈ l := by
  induction l with
  | nil => simp
  | cons q l ih =>
      intro acc p
      rw [List.foldl_cons, ih, mem_uniqueStep]
      simp only [List.mem_cons]
      tauto

lemma mem_uniqueFirst (l : List String) (p : String) : p ∈ uniqueFirst l ↔ p ∈ l := by
  rw [uniqueFirst, mem_uniqueFirst_foldl]
  simp

lemma mem_lista_pacientes (ps : List PacienteRec) (ts : List TurnoRow) (p : String) :
    p ∈ lista_pacientes ps ts ↔
      p = "Vacante" ∨ p ∈ pacientesActivos ps ∨
        (p ∈ ts.map (fun r => r.paciente) ∧ p ≠ "Vacante") := by
  simp only [lista_pacientes]
  rw [mem_lista_foldl, mem_uniqueFirst, List.mem_cons,
    (List.perm_insertionSort (· ≤ ·) (pacientesActivos ps)).mem_iff]
  tauto

/-- Claim C7 counterexample: with `Ana` deactivated but still booked on the
viewed day, the grid still renders `Ana` in the occupied slot, yet `Ana`
*does* appear in the dropdown options (`lista_pacientes`), contradicting the
claim that a deactivated patient is absent from the new-assignment
dropdown. -/
theorem lista_pacientes_counterexample :
    turnoActual [⟨"2024-04-02", "13:00:00", "1", "Ana", "No"⟩]
        "2024-04-02" "13:00:00" 1 = ("Ana", false) ∧
    "Ana" ∈ lista_pacientes [⟨"Ana", "No"⟩]
        [⟨"2024-04-02", "13:00:00", "1", "Ana", "No"⟩] := by
  constructor
  · rfl
  · rw [mem_lista_pacientes]
    exact Or.inr (Or.inr ⟨by decide, by decide⟩)

/-- Claim C7 (amended): after deactivating a patient who still holds an
appointment on the viewed day, the grid still renders that patient's name
in the occupied slot, and the patient still appears in the (single, shared)
dropdown options list for that day; only a patient who is neither active nor
booked on the viewed day is absent from the options. -/
theorem lista_pacientes_amended (ps : List PacienteRec) (ts : List TurnoRow)
    (p : String) :
    (p ∈ ts.map (fun r => r.paciente) → p ≠ "Vacante" →
      p ∈ lista_pacientes ps ts) ∧
    (p ∉ pacientesActivos ps → p ∉ ts.map (fun r => r.paciente) → p ≠ "Vacante" →
      p ∉ lista_pacientes ps ts) ∧
    (∀ (fecha hora : String) (camilla : Nat) (r : TurnoRow),
      (ts.filter (fun x => x.fecha == fecha)).find?
          (fun x => x.hora == hora && x.camilla == toString camilla) = some r →
      turnoActual ts fecha hora camilla = (r.paciente, r.pagado == "Sí")) := by
  refine ⟨?_, ?_, ?_⟩
  · intro hmem hvac
    rw [mem_lista_pacientes]
    exact Or.inr (Or.inr ⟨hmem, hvac⟩)
  · intro hact hmem hvac
    rw [mem_lista_pacientes]
    rintro (h | h | ⟨h, _⟩)
    · exact hvac h
    · exact hact h
    · exact hmem h
  · intro fecha hora camilla r hfind
    rw [turnoActual, hfind]

/-- Witness for C7 (amended): `Ana` is inactive yet booked, so listed;
`Bea` is inactive and unbooked, so absent; the slot renders `Ana`. -/
theorem lista_pacientes_amended_witness :
    "Ana" ∈ lista_pacientes [⟨"Ana", "No"⟩, ⟨"Bea", "No"⟩]
        [⟨"2024-04-09", "13:00:00", "1", "Ana", "No"⟩] ∧
    "Bea" ∉ lista_pacientes [⟨"Ana", "No"⟩, ⟨"Bea", "No"⟩]
        [⟨"2024-04-09", "13:00:00", "1", "Ana", "No"⟩] ∧
    turnoActual [⟨"2024-04-09", "13:00:00", "1", "Ana", "No"⟩]
        "2024-04-09" "13:00:00" 1 = ("Ana", false) :=
  ⟨(lista_pacientes_amended [⟨"Ana", "No"⟩, ⟨"Bea", "No"⟩]
      [⟨"2024-04-09", "13:00:00", "1", "Ana", "No"⟩] "Ana").1 (by decide) (by decide),
   (lista_pacientes_amended [⟨"Ana", "No"⟩, ⟨"Bea", "No"⟩]
      [⟨"2024-04-09", "13:00:00", "1", "Ana", "No"⟩] "Bea").2.1
     (by decide) (by decide) (by decide),
   (lista_pacientes_amended [⟨"Ana", "No"⟩, ⟨"Bea", "No"⟩]
      [⟨"2024-04-09", "13:00:00", "1", "Ana", "No"⟩] "Ana").2.2
     "2024-04-09" "13:00:00" 1 ⟨"2024-04-09", "13:00:00", "1", "Ana", "No"⟩ (by decide)⟩

/-! ### Statistics over an empty period (C8) -/

lemma fst_mem_of_mem_merge {turnos : List TurnoRow} {pacientes : List PacienteRec}
    {m : TurnoRow × Option PacienteRec} (h : m ∈ mergeTurnosPacientes turnos pacientes) :
    m.1 ∈ turnos := by
  rw [mergeTurnosPacientes, List.mem_flatMap] at h
  rcases h with ⟨t, ht, hm⟩
  rcases hps : pacientes.filter (fun p => p.nombre == t.paciente) with _ | ⟨p, ps⟩
  · rw [hps] at hm
    rw [List.mem_singleton] at hm
    subst hm
    exact ht
  · rw [hps] at hm
    rcases List.mem_map.mp hm with ⟨p', _, hp'⟩
    subst hp'
    exact ht

/-- Claim C8 counterexample: with both tables non-empty and no appointment
in the selected range, the statistics page halts at the informational
"no appointments in the period" message (`st.info` + `st.stop`) — it does
not render the zero-valued metrics the claim promises. -/
theorem estadisticas_counterexample :
    estadisticas [⟨"2024-01-01", "13:00:00", "1", "Ana", "No"⟩] [⟨"Ana", "Sí"⟩]
        "2025-01-01" "2025-12-31" = StatsOutcome.emptyPeriod ∧
    StatsOutcome.emptyPeriod ≠ StatsOutcome.metrics 0 0 0 := by
  constructor
  · rfl
  · intro h
    cases h

/-- Claim C8 (amended): when the Appointments and Patients tables are
non-empty but no appointment with a parseable date falls inside the
inclusive `[startDate, endDate]` range, the statistics computation halts
with the informational empty-period outcome — it neither fails with an
error nor renders metrics. -/
theorem estadisticas_empty_period (turnos : List TurnoRow)
    (pacientes : List PacienteRec) (startDate endDate : String)
    (h1 : turnos ≠ []) (h2 : pacientes ≠ [])
    (h3 : ∀ r ∈ turnos,
      ¬(validFecha r.fecha = true ∧ fechaLe startDate r.fecha = true ∧
        fechaLe r.fecha endDate = true)) :
    estadisticas turnos pacientes startDate endDate = StatsOutcome.emptyPeriod := by
  rw [estadisticas, if_neg (by simp [h1, h2])]
  rw [if_pos]
  rw [List.filter_eq_nil_iff]
  intro m hm
  have hval : validFecha m.1.fecha = true := by
    have := fst_mem_of_mem_merge hm
    rw [List.mem_filter] at this
    exact this.2
  have hturno : m.1 ∈ turnos := by
    have := fst_mem_of_mem_merge hm
    rw [List.mem_filter] at this
    exact this.1
  intro hrange
  rw [Bool.and_eq_true] at hrange
  exact h3 m.1 hturno ⟨hval, hrange.1, hrange.2⟩

/-- Witness for C8 (amended) at a concrete out-of-range table. -/
theorem estadisticas_empty_period_witness :
    estadisticas [⟨"2024-07-01", "13:00:00", "1", "Ana", "No"⟩] [⟨"Ana", "Sí"⟩]
        "2026-01-01" "2026-12-31" = StatsOutcome.emptyPeriod :=
  estadisticas_empty_period [⟨"2024-07-01", "13:00:00", "1", "Ana", "No"⟩]
    [⟨"Ana", "Sí"⟩] "2026-01-01" "2026-12-31" (by decide) (by decide) (by decide)

/-! ### The stale-index ordering hazard (C1, C3, C4) -/

/-- Claim C1 (code bug): row indices of deletes and updates are resolved
against the stale pre-batch snapshot, not the live table.  With three booked
slots (13:00, 14:00, 15:00) all edited to `Vacante`, the batch issues
deletes at physical rows 2, 3, 4 in ascending order; after the first delete
the live sheet has shifted, so the delete issued for the 14:00 key at
physical row 3 actually lands on the 15:00 row, and the final table still
contains the 14:00 row instead of being empty. -/
theorem saveBatch_stale_indices_bug :
    (saveBatch
        [⟨"2024-02-06", "13:00:00", "1", "Ana", "No"⟩,
         ⟨"2024-02-06", "14:00:00", "1", "Beto", "No"⟩,
         ⟨"2024-02-06", "15:00:00", "1", "Cata", "No"⟩]
        [⟨"2024-02-06", "13:00:00", "1", "Ana", "No"⟩,
         ⟨"2024-02-06", "14:00:00", "1", "Beto", "No"⟩,
         ⟨"2024-02-06", "15:00:00", "1", "Cata", "No"⟩]
        "2024-02-06" ["13:00:00", "14:00:00", "15:00:00"] 4
        (fun _ _ => ("Vacante", false))).2
      = [SheetOp.deleteRow 2, SheetOp.deleteRow 3, SheetOp.deleteRow 4] ∧
    (saveBatch
        [⟨"2024-02-06", "13:00:00", "1", "Ana", "No"⟩,
         ⟨"2024-02-06", "14:00:00", "1", "Beto", "No"⟩,
         ⟨"2024-02-06", "15:00:00", "1", "Cata", "No"⟩]
        [⟨"2024-02-06", "13:00:00", "1", "Ana", "No"⟩,
         ⟨"2024-02-06", "14:00:00", "1", "Beto", "No"⟩,
         ⟨"2024-02-06", "15:00:00", "1", "Cata", "No"⟩]
        "2024-02-06" ["13:00:00", "14:00:00", "15:00:00"] 4
        (fun _ _ => ("Vacante", false))).1
      = [⟨"2024-02-06", "14:00:00", "1", "Beto", "No"⟩] ∧
    (applyOp
        [⟨"2024-02-06", "13:00:00", "1", "Ana", "No"⟩,
         ⟨"2024-02-06", "14:00:00", "1", "Beto", "No"⟩,
         ⟨"2024-02-06", "15:00:00", "1", "Cata", "No"⟩]
        (SheetOp.deleteRow 2))[3 - 2]?
      = some ⟨"2024-02-06", "15:00:00", "1", "Cata", "No"⟩ := by
  refine ⟨by rfl, by rfl, by rfl⟩

/-- Claim C3 (code bug): rendering immediately after the save (cache cleared,
so the render reads the post-batch live table) does not reproduce the
submitted values — every slot was submitted `("Vacante", false)`, yet the
14:00 slot still renders `("Luis", false)` because the second delete landed
on the wrong physical row. -/
theorem render_after_save_not_roundtrip :
    turnoActual
        (saveBatch
          [⟨"2024-03-05", "13:00:00", "1", "Caro", "No"⟩,
           ⟨"2024-03-05", "14:00:00", "1", "Luis", "No"⟩,
           ⟨"2024-03-05", "15:00:00", "1", "Mara", "No"⟩]
          [⟨"2024-03-05", "13:00:00", "1", "Caro", "No"⟩,
           ⟨"2024-03-05", "14:00:00", "1", "Luis", "No"⟩,
           ⟨"2024-03-05", "15:00:00", "1", "Mara", "No"⟩]
          "2024-03-05" ["13:00:00", "14:00:00", "15:00:00"] 4
          (fun _ _ => ("Vacante", false))).1
        "2024-03-05" "14:00:00" 1
      = ("Luis", false) ∧
    ("Luis", false) ≠
      (("Vacante", false) :
        String × Bool) := by
  refine ⟨by rfl, by decide⟩

/-- Claim C4 (code bug): reconciliation is not idempotent.  After applying
the batch once, re-running the same submitted selections against the
post-save table issues a further write (a delete of the row the first pass
left behind), so the second pass does not compare every key as
unchanged. -/
theorem saveBatch_not_idempotent :
    (saveBatch
        (saveBatch
          [⟨"2024-04-16", "13:00:00", "1", "Dana", "No"⟩,
           ⟨"2024-04-16", "14:00:00", "1", "Elsa", "No"⟩,
           ⟨"2024-04-16", "15:00:00", "1", "Fito", "No"⟩]
          [⟨"2024-04-16", "13:00:00", "1", "Dana", "No"⟩,
           ⟨"2024-04-16", "14:00:00", "1", "Elsa", "No"⟩,
           ⟨"2024-04-16", "15:00:00", "1", "Fito", "No"⟩]
          "2024-04-16" ["13:00:00", "14:00:00", "15:00:00"] 4
          (fun _ _ => ("Vacante", false))).1
        (saveBatch
          [⟨"2024-04-16", "13:00:00", "1", "Dana", "No"⟩,
           ⟨"2024-04-16", "14:00:00", "1", "Elsa", "No"⟩,
           ⟨"2024-04-16", "15:00:00", "1", "Fito", "No"⟩]
          [⟨"2024-04-16", "13:00:00", "1", "Dana", "No"⟩,
           ⟨"2024-04-16", "14:00:00", "1", "Elsa", "No"⟩,
           ⟨"2024-04-16", "15:00:00", "1", "Fito", "No"⟩]
          "2024-04-16" ["13:00:00", "14:00:00", "15:00:00"] 4
          (fun _ _ => ("Vacante", false))).1
        "2024-04-16" ["13:00:00", "14:00:00", "15:00:00"] 4
        (fun _ _ => ("Vacante", false))).2
      = [SheetOp.deleteRow 2] ∧
    [SheetOp.deleteRow 2] ≠ ([] : List SheetOp) := by
  refine ⟨by rfl, by decide⟩

/-- Witness for C9 at a concrete batch with one append: the flow counts one
cache clear, ends with it, and its earlier event is a write. -/
theorem submitFlow_clear_once_after_writes_witness :
    (submitFlow [] [] "2024-08-01" ["13:00:00"] 1
        (fun _ _ => ("Ana", true))).count Event.clearCache = 1 ∧
    ∃ op,
      (Event.write (SheetOp.appendRow ⟨"2024-08-01", "13:00:00", "1", "Ana", "Sí"⟩)
        : Event) = Event.write op :=
  ⟨(submitFlow_clear_once_after_writes [] [] "2024-08-01" ["13:00:00"] 1
      (fun _ _ => ("Ana", true))).1,
   (submitFlow_clear_once_after_writes [] [] "2024-08-01" ["13:00:00"] 1
      (fun _ _ => ("Ana", true))).2.2
     (Event.write (SheetOp.appendRow ⟨"2024-08-01", "13:00:00", "1", "Ana", "Sí"⟩))
     (by decide)⟩
